import Mathlib

/-!
Shallow embedding of the broadcast-box control-plane layer (`src/main.go` and
`src/internal/webrtc/pgsql.go`): token extraction and validation, the WHIP and
WHEP handlers, the server-sent-events layer notifier, the layer-switch handler,
and the stream-key store adapter.  External collaborators (the pgx connection
pool, the media engine) enter as explicit outcome values or oracle functions;
the HTTP response writer is modelled by an explicit trace of header, status and
body writes.
-/

namespace BroadcastBox

/-- Characters of a Go string split on a single-character separator, mirroring
`strings.Split`: splitting the empty string yields one empty field, and the
result always has exactly one more field than there are separators (it is never
the empty list). -/
def splitOnChar (sep : Char) : List Char → List (List Char)
  | [] => [[]]
  | c :: cs =>
    match splitOnChar sep cs with
    | [] => [[]]
    | g :: gs => if c = sep then [] :: g :: gs else (c :: g) :: gs

/-- Go `strings.Split(s, sep)` for a one-character separator, as a list of
strings. -/
def goSplit (s : String) (sep : Char) : List String :=
  (splitOnChar sep s.data).map String.mk

/-- Go `strings.HasPrefix(s, p)`. -/
def goStartsWith (s p : String) : Bool :=
  p.data.isPrefixOf s.data

/-- Go `strings.TrimPrefix` in the only way the source uses it: dropping the
first `n` characters after a successful HasPrefix check of a length-`n`
prefix. -/
def goDropHead (s : String) (n : Nat) : String :=
  String.mk (s.data.drop n)

/-- Go `strings.TrimSuffix(s, suf)`: remove the suffix when present, otherwise
return the string unchanged. -/
def goTrimSuf (s suf : String) : String :=
  if suf.data.isSuffixOf s.data then String.mk (s.data.take (s.data.length - suf.data.length))
  else s

/-- The trailing path segment `vals[len(vals)-1]` after splitting a request URI
on `/`; the split is never empty, so the Go index never faults here. -/
def lastSegment (uri : String) : String :=
  (goSplit uri '/').getLastD ""

/-- One character of the stream-key class of `validateStreamKey`'s regular
expression `^[a-zA-Z0-9_\-\.~]+$`: the ASCII ranges a-z (97..122), A-Z
(65..90), 0-9 (48..57), and the four literals underscore, hyphen, dot and
tilde. -/
def isStreamKeyChar (c : Char) : Bool :=
  (c.val ≥ 97 && c.val ≤ 122) || (c.val ≥ 65 && c.val ≤ 90) ||
    (c.val ≥ 48 && c.val ≤ 57) || c == '_' || c == '-' || c == '.' || c == '~'

/-- Function `validateStreamKey` from `main.go`: `MatchString` of the anchored pattern
`^[a-zA-Z0-9_\-\.~]+$` holds exactly on the non-empty strings all of whose
characters lie in the class. -/
def validateStreamKey (streamKey : String) : Bool :=
  !streamKey.data.isEmpty && streamKey.data.all isStreamKeyChar

/-- Function `extractBearerToken` from `main.go`: when the header carries the literal
prefix `Bearer ` (seven characters), the remainder is split on `;` and returned
with `true`; otherwise the Go function returns a nil slice (here `none`) and
`false`. -/
def extractBearerToken (authHeader : String) : Option (List String) × Bool :=
  if goStartsWith authHeader "Bearer " then
    (some (goSplit (goDropHead authHeader 7) ';'), true)
  else
    (none, false)

/-- The observable effect of one handler invocation on its `http.ResponseWriter`
together with the book-keeping the claims talk about: whether the credential
store was reached, whether the engine operation was invoked, and whether the
handler hit a Go runtime panic (an out-of-bounds slice index). -/
structure Trace where
  status : Option Nat := none
  body : String := ""
  headers : List (String × String) := []
  storeAccessed : Bool := false
  engineCalled : Bool := false
  panicked : Bool := false
deriving Repr, DecidableEq

/-- Models `Header().Add`: appends a value for the key. -/
def headerAdd (t : Trace) (k v : String) : Trace :=
  { t with headers := t.headers ++ [(k, v)] }

/-- Models `Header().Set`: replaces all values for the key with the single value. -/
def headerSet (t : Trace) (k v : String) : Trace :=
  { t with headers := t.headers.filter (fun p => !(p.1 == k)) ++ [(k, v)] }

/-- Models `WriteHeader`: the first call fixes the status; later calls are superfluous
and ignored by net/http. -/
def writeHeader (t : Trace) (code : Nat) : Trace :=
  match t.status with
  | some _ => t
  | none => { t with status := some code }

/-- A body write (`fmt.Fprint` and friends): an implicit 200 is recorded when no
status has been written yet, and the text is appended to the body. -/
def writeBody (t : Trace) (s : String) : Trace :=
  { t with status := some (t.status.getD 200), body := t.body ++ s }

/-- Function `logHTTPError` from `main.go`: the server-side log line has no observable
effect on the response; `http.Error` sets the plain-text error headers, writes
the status code, and writes the message followed by a newline. -/
def logHTTPError (t : Trace) (msg : String) (code : Nat) : Trace :=
  writeBody
    (writeHeader
      (headerSet (headerSet t "Content-Type" "text/plain; charset=utf-8")
        "X-Content-Type-Options" "nosniff")
      code)
    (msg ++ "\n")

/-- The status the client observes: the written status, or 200 when the handler
returned without writing one. -/
def Trace.statusEff (t : Trace) : Nat :=
  t.status.getD 200

/-- The values of all `Link` headers of a trace, in order. -/
def linkValues (t : Trace) : List String :=
  (t.headers.filter (fun p => p.1 == "Link")).map (fun p => p.2)

/-- The values of all headers with the given key, in order. -/
def headerValues (t : Trace) (k : String) : List String :=
  (t.headers.filter (fun p => p.1 == k)).map (fun p => p.2)

/-- Structure `Streamer` from `pgsql.go`. -/
structure Streamer where
  Name : String
  AuthToken : String
  StreamKey : String
deriving Repr, DecidableEq

/-- Outcome of `row.Scan` for the one-credential query in `NewStreamer`: a
matching row, no matching row (`pgx.ErrNoRows`), or a transient pool/query
failure reported through the deferred error of `QueryRow`. -/
inductive ScanResult
  | found (name authToken : String)
  | noRows
  | transientErr (msg : String)
deriving Repr, DecidableEq

/-- Result of running `NewStreamer`: either a Go runtime panic from an
out-of-bounds token index, or the returned `*Streamer`, which is `none` exactly
when `Scan` reported an error. -/
inductive LookupResult
  | panic
  | ok (streamer : Option Streamer)
deriving Repr, DecidableEq

/-- Function `NewStreamer` from `pgsql.go`: the query arguments read `token[0]` and
`token[1]` before the query runs, so a nil slice or a slice with fewer than two
elements panics with an index out of range before the store is reached.
Otherwise the query runs and any `Scan` error — `pgx.ErrNoRows` and transient
pool or query failures alike — makes the function return nil; a matching row
yields the streamer with `StreamKey` set to `token[0]`.  The Bool records
whether the store was reached. -/
def NewStreamer (store : String → String → ScanResult) (token : Option (List String)) :
    LookupResult × Bool :=
  match token with
  | none => (.panic, false)
  | some ts =>
    match ts.get? 0, ts.get? 1 with
    | some k, some a =>
      match store k a with
      | .found n tk => (.ok (some ⟨n, tk, k⟩), true)
      | _ => (.ok none, true)
    | _, _ => (.panic, false)

/-- Handler `whipHandler` from `main.go`.  The request is its method, the raw
`Authorization` header value (Go `Header.Get` yields the empty string when the
header is absent), and the outcome of reading the body; the media engine's WHIP
negotiation is an oracle from offer and streamer to answer or error.  The
malformed-token branch logs a 400 but has no `return`: control falls through to
`NewStreamer` even then.  When extraction succeeds the split is non-empty, so
`token[0]` in the validation condition is the head of the list (Go's `||`
short-circuits before the index when extraction failed). -/
def whipHandler (store : String → String → ScanResult)
    (engine : String → Streamer → Except String String)
    (method : String) (authHeader : String) (bodyRead : Except String String) : Trace :=
  let t0 : Trace := {}
  if method == "DELETE" then t0
  else if authHeader == "" then logHTTPError t0 "Authorization was not set" 400
  else
    let et := extractBearerToken authHeader
    let malformed := !et.2 || et.1.isNone || !(validateStreamKey ((et.1.getD []).headD ""))
    let t1 := if malformed then logHTTPError t0 "Not a valid token" 400 else t0
    match NewStreamer store et.1 with
    | (.panic, accessed) => { t1 with panicked := true, storeAccessed := accessed }
    | (.ok os, _) =>
      let t2 := { t1 with storeAccessed := true }
      match os with
      | none => logHTTPError t2 "Not an authorized streamer" 403
      | some streamer =>
        match bodyRead with
        | .error e => logHTTPError t2 e 400
        | .ok offer =>
          match engine offer streamer with
          | .error e => logHTTPError t2 e 400
          | .ok answer =>
            writeBody
              (writeHeader
                (headerAdd (headerAdd t2 "Location" "/api/whip")
                  "Content-Type" "application/sdp")
                201)
              answer

/-- Handler `whepHandler` from `main.go`.  The engine's WHEP negotiation is an oracle
from offer and stream key to an answer plus a freshly minted session id, or an
error.  Here every error branch does return, so `token[0]` is only read after a
successful extraction (where the split is non-empty). -/
def whepHandler (engine : String → String → Except String (String × String))
    (host : String) (requestURI : String)
    (authHeader : String) (bodyRead : Except String String) : Trace :=
  let t0 : Trace := {}
  if authHeader == "" then logHTTPError t0 "Authorization was not set" 400
  else
    let et := extractBearerToken authHeader
    if !et.2 || !(validateStreamKey ((et.1.getD []).headD "")) then
      logHTTPError t0 "Invalid stream key format" 400
    else
      match bodyRead with
      | .error e => logHTTPError t0 e 400
      | .ok offer =>
        match engine offer ((et.1.getD []).headD "") with
        | .error e => logHTTPError t0 e 400
        | .ok (answer, whepSessionId) =>
          let apiPath := host ++ goTrimSuf requestURI "whep"
          let t1 := headerAdd t0 "Link"
            ("<" ++ apiPath ++ "sse/" ++ whepSessionId ++
              ">; rel=\"urn:ietf:params:whep:ext:core:server-sent-events\"; events=\"layers\"")
          let t2 := headerAdd t1 "Link"
            ("<" ++ apiPath ++ "layer/" ++ whepSessionId ++
              ">; rel=\"urn:ietf:params:whep:ext:core:layer\"")
          let t3 := headerAdd (headerAdd t2 "Location" "/api/whep")
            "Content-Type" "application/sdp"
          writeBody (writeHeader t3 201) answer

/-- Handler `whepServerSentEventsHandler` from `main.go`: sets the three event-stream
headers, takes the session id from the trailing path segment, queries the
engine's `WHEPLayers` (an oracle from session id to the JSON text of the layer
list, or an error for an unknown session), answers 400 on error, and otherwise
writes exactly one event frame with three Fprint calls and returns. -/
def whepServerSentEventsHandler (whepLayers : String → Except String String)
    (requestURI : String) : Trace :=
  let t0 := headerSet (headerSet (headerSet ({} : Trace)
    "Content-Type" "text/event-stream") "Cache-Control" "no-cache") "Connection" "keep-alive"
  let whepSessionId := lastSegment requestURI
  match whepLayers whepSessionId with
  | .error e => logHTTPError t0 e 400
  | .ok layers =>
    writeBody (writeBody (writeBody t0 "event: layers\n") ("data: " ++ layers ++ "\n")) "\n\n"

/-- The result of running Go's JSON scanner over a request body: either the
text is not well-formed JSON, or it denotes an object whose string-valued
members are listed in document order. -/
inductive JsonBodyScan
  | malformed (msg : String)
  | obj (fields : List (String × String))
deriving Repr, DecidableEq

/-- Structure `whepLayerRequestJSON` from `main.go`. -/
structure whepLayerRequestJSON where
  MediaId : String
  EncodingId : String
deriving Repr, DecidableEq

/-- Go `json.NewDecoder(req.Body).Decode(&r)` into `whepLayerRequestJSON`:
malformed JSON is an error; for an object, each tagged field takes the member's
value when the member is present and keeps its zero value `""` when it is
absent — `encoding/json` never errors on a missing member, and unknown members
are ignored. -/
def decodeWhepLayerRequest : JsonBodyScan → Except String whepLayerRequestJSON
  | .malformed msg => .error msg
  | .obj fields =>
    .ok { MediaId := (fields.lookup "mediaId").getD ""
          EncodingId := (fields.lookup "encodingId").getD "" }

/-- Handler `whepLayerHandler` from `main.go`: decode the JSON body (error: 400 and
return), take the session id from the trailing path segment, and call the
engine's `WHEPChangeLayer` (an oracle returning `some msg` on error), answering
400 on error and nothing on success. -/
def whepLayerHandler (changeLayer : String → String → Option String)
    (requestURI : String) (body : JsonBodyScan) : Trace :=
  let t0 : Trace := {}
  match decodeWhepLayerRequest body with
  | .error e => logHTTPError t0 e 400
  | .ok r =>
    let whepSessionId := lastSegment requestURI
    let t1 := { t0 with engineCalled := true }
    match changeLayer whepSessionId r.EncodingId with
    | some e => logHTTPError t1 e 400
    | none => t1

/-- The store-side outcome of the `GetStreamKeys` query: the rows the cursor
delivered before iteration stopped, and whether the error `pool.Query` returned
(and the source discards) was non-nil.  A pool-acquisition or query failure
delivers no rows at all; a failure during iteration leaves a partial list. -/
structure KeysQueryOutcome where
  rows : List String
  failed : Bool
deriving Repr, DecidableEq

/-- Function `GetStreamKeys` from `pgsql.go`: the error from `pool.Query` is discarded by
`rows, _ :=`, iteration collects whatever rows arrive, and the returned error is
the literal nil, whatever happened at the store. -/
def GetStreamKeys (q : KeysQueryOutcome) : List String × Option String :=
  (q.rows, none)

/-- JSON text of one stream key; keys drawn from the stream-key character class
contain nothing `encoding/json` needs to escape. -/
def jsonQuote (s : String) : String :=
  "\"" ++ s ++ "\""

/-- The comma-separated element text of a JSON array of strings. -/
def jsonArrayBody : List String → String
  | [] => ""
  | [k] => jsonQuote k
  | k :: ks => jsonQuote k ++ "," ++ jsonArrayBody ks

/-- Go `json.NewEncoder(res).Encode` applied to the `[]string` built in
`GetStreamKeys`, with the newline `Encode` appends.  The slice starts out as Go
nil and grows only by `append`, so an empty result is the nil slice, which
`encoding/json` encodes as the literal `null`, not as `[]`. -/
def goEncodeStreamKeys (keys : List String) : String :=
  match keys with
  | [] => "null\n"
  | k :: ks => "[" ++ jsonArrayBody (k :: ks) ++ "]" ++ "\n"

/-- Handler `streamsHandler` from `main.go`: sets the JSON content type, calls
`GetStreamKeys`, answers 400 if it returned an error (it never does), and
otherwise encodes the key list into the response (encoding a `[]string` value
itself cannot fail). -/
def streamsHandler (q : KeysQueryOutcome) : Trace :=
  let t0 := headerAdd ({} : Trace) "Content-Type" "application/json"
  let r := GetStreamKeys q
  match r.2 with
  | some _ => logHTTPError t0 "Could not get stream keys" 400
  | none => writeBody t0 (goEncodeStreamKeys r.1)

/-- Handler `statusHandler` from `main.go`: validate the path's stream key (400 on bad
format), enumerate the known keys via `GetStreamKeys` (its error branch is
dead), answer 404 when the key is not in the set, and otherwise encode the
engine's `GetStreamStatus` for the key — modelled as an oracle giving the JSON
text `Encode` produces, to which `Encode` appends a newline.  `engineCalled`
records whether `GetStreamStatus` was queried. -/
def statusHandler (q : KeysQueryOutcome) (getStatusJson : String → String)
    (streamKey : String) : Trace :=
  let t0 := headerAdd ({} : Trace) "Content-Type" "application/json"
  if !(validateStreamKey streamKey) then logHTTPError t0 "Invalid stream key format" 400
  else
    let r := GetStreamKeys q
    match r.2 with
    | some _ => logHTTPError t0 "Could not get stream keys" 400
    | none =>
      if !(r.1.contains streamKey) then logHTTPError t0 "Stream does not exist" 404
      else writeBody { t0 with engineCalled := true } (getStatusJson streamKey ++ "\n")

/-- Modelled from the claim's words only (for comparison with the code-derived
encoding): a response body whose text is a JSON array literal starts with an
opening bracket. -/
def isJsonArrayBody (body : String) : Bool :=
  body.data.headD ' ' == '['

/-- Bridge between the regex character class of the source and the
letter/digit/punctuation vocabulary of the specification. -/
theorem isStreamKeyChar_iff (c : Char) :
    isStreamKeyChar c = true ↔
      (c.isAlpha = true ∨ c.isDigit = true ∨ c = '_' ∨ c = '-' ∨ c = '.' ∨ c = '~') := by
  simp only [isStreamKeyChar, Char.isAlpha, Char.isLower, Char.isUpper, Char.isDigit,
    Bool.or_eq_true, Bool.and_eq_true, decide_eq_true_eq, beq_iff_eq]
  tauto

/-- C8: for all strings s, validateStreamKey s is true iff s is non-empty and
every character of s is a letter, a digit, or one of underscore, hyphen, dot,
tilde. -/
theorem c8_validateStreamKey_iff (s : String) :
    validateStreamKey s = true ↔
      (s ≠ "" ∧ ∀ c ∈ s.data,
        c.isAlpha = true ∨ c.isDigit = true ∨ c = '_' ∨ c = '-' ∨ c = '.' ∨ c = '~') := by
  unfold validateStreamKey
  rw [Bool.and_eq_true]
  simp only [Bool.not_eq_true', List.all_eq_true, isStreamKeyChar_iff]
  constructor
  · rintro ⟨h1, h2⟩
    refine ⟨?_, h2⟩
    intro hs
    subst hs
    exact absurd h1 (by decide)
  · rintro ⟨h1, h2⟩
    refine ⟨?_, h2⟩
    obtain ⟨data⟩ := s
    cases data with
    | nil => exact absurd rfl h1
    | cons c cs => rfl

/-- Witness for C8 at a concrete input: the key built from every admitted
character kind validates. -/
theorem c8_witness : validateStreamKey "Abc_19.~-" = true :=
  (c8_validateStreamKey_iff "Abc_19.~-").mpr (by decide)

/-- C9: extractBearerToken returns the remainder after the literal prefix
`Bearer ` split on `;` together with true whenever the header carries that
prefix, and nil with false otherwise; in particular `Bearer a;b` yields
`["a","b"], true`, `Basic x` yields nil and false, and `Bearer ` yields a
single empty component with true, and that empty component fails the
downstream key-format check. -/
theorem c9_extractBearerToken_spec :
    (∀ h : String, goStartsWith h "Bearer " = true →
        extractBearerToken h = (some (goSplit (goDropHead h 7) ';'), true)) ∧
    (∀ h : String, goStartsWith h "Bearer " = false →
        extractBearerToken h = (none, false)) ∧
    extractBearerToken "Bearer a;b" = (some ["a", "b"], true) ∧
    extractBearerToken "Basic x" = (none, false) ∧
    extractBearerToken "Bearer " = (some [""], true) ∧
    validateStreamKey "" = false := by
  refine ⟨?_, ?_, by decide, by decide, by decide, by decide⟩
  · intro h hp
    simp [extractBearerToken, hp]
  · intro h hp
    simp [extractBearerToken, hp]

/-- Witness for C9 at a concrete input. -/
theorem c9_witness :
    extractBearerToken "Bearer k1;s1" = (some (goSplit (goDropHead "Bearer k1;s1" 7) ';'), true) :=
  c9_extractBearerToken_spec.1 "Bearer k1;s1" (by decide)

/-- C6: when the engine knows the session taken from the trailing path segment,
the response body is exactly one SSE frame — the line `event: layers`, the line
`data: <layer list>`, and the blank-line terminator — after which the handler
returns with an implicit 200; when the engine rejects the session id, the
response is 400 carrying the engine's error. -/
theorem c6_sse_single_frame (f : String → Except String String)
    (uri layersJson errMsg : String) :
    (f (lastSegment uri) = Except.ok layersJson →
      (whepServerSentEventsHandler f uri).body =
        "event: layers\n" ++ ("data: " ++ layersJson ++ "\n") ++ "\n\n" ∧
      (whepServerSentEventsHandler f uri).statusEff = 200) ∧
    (f (lastSegment uri) = Except.error errMsg →
      (whepServerSentEventsHandler f uri).statusEff = 400 ∧
      (whepServerSentEventsHandler f uri).body = errMsg ++ "\n") := by
  constructor
  · intro hf
    simp only [whepServerSentEventsHandler]
    rw [hf]
    exact ⟨rfl, rfl⟩
  · intro hf
    simp only [whepServerSentEventsHandler]
    rw [hf]
    exact ⟨rfl, rfl⟩

/-- Witness for C6 at a concrete session and layer list. -/
theorem c6_witness :
    (whepServerSentEventsHandler (fun _ => Except.ok "[]") "/api/sse/abc").body =
      "event: layers\n" ++ ("data: " ++ "[]" ++ "\n") ++ "\n\n" ∧
    (whepServerSentEventsHandler (fun _ => Except.error "no session") "/api/sse/abc").statusEff
      = 400 :=
  ⟨((c6_sse_single_frame (fun _ => Except.ok "[]") "/api/sse/abc" "[]" "e").1 rfl).1,
   ((c6_sse_single_frame (fun _ => Except.error "no session") "/api/sse/abc" "l" "no session").2
      rfl).1⟩

/-- Counterexample to C5 as stated: at host example.com the Link URLs the
handler emits carry the request Host in front of the stripped request path, so
they are not equal to the path-derived URLs the claim describes. -/
theorem c5_counterexample :
    linkValues (whepHandler (fun _ _ => Except.ok ("theanswer", "s1")) "example.com" "/api/whep"
        "Bearer abc" (Except.ok "offer")) =
      ["<example.com/api/sse/s1>; rel=\"urn:ietf:params:whep:ext:core:server-sent-events\"; events=\"layers\"",
       "<example.com/api/layer/s1>; rel=\"urn:ietf:params:whep:ext:core:layer\""] ∧
    ¬ linkValues (whepHandler (fun _ _ => Except.ok ("theanswer", "s1")) "example.com" "/api/whep"
        "Bearer abc" (Except.ok "offer")) =
      ["</api/sse/s1>; rel=\"urn:ietf:params:whep:ext:core:server-sent-events\"; events=\"layers\"",
       "</api/layer/s1>; rel=\"urn:ietf:params:whep:ext:core:layer\""] := by
  decide

/-- C5 as amended: for every WHEP POST with a well-formed stream key and an SDP
offer the engine accepts, the response has status 201, Content-Type
application/sdp, Location exactly /api/whep, and exactly two Link headers with
the SSE and layer relations, whose URLs are the request Host concatenated with
the request path with the trailing `whep` stripped, followed by
`sse/<sessionId>` respectively `layer/<sessionId>` for the freshly returned
session id. -/
theorem c5_whep_links (host uri auth offer answer sid key : String) (rest : List String)
    (hex : extractBearerToken auth = (some (key :: rest), true))
    (hkey : validateStreamKey key = true) :
    (whepHandler (fun _ _ => Except.ok (answer, sid)) host uri auth
        (Except.ok offer)).statusEff = 201 ∧
    (whepHandler (fun _ _ => Except.ok (answer, sid)) host uri auth
        (Except.ok offer)).body = answer ∧
    headerValues (whepHandler (fun _ _ => Except.ok (answer, sid)) host uri auth
        (Except.ok offer)) "Location" = ["/api/whep"] ∧
    headerValues (whepHandler (fun _ _ => Except.ok (answer, sid)) host uri auth
        (Except.ok offer)) "Content-Type" = ["application/sdp"] ∧
    linkValues (whepHandler (fun _ _ => Except.ok (answer, sid)) host uri auth
        (Except.ok offer)) =
      ["<" ++ (host ++ goTrimSuf uri "whep") ++ "sse/" ++ sid ++
         ">; rel=\"urn:ietf:params:whep:ext:core:server-sent-events\"; events=\"layers\"",
       "<" ++ (host ++ goTrimSuf uri "whep") ++ "layer/" ++ sid ++
         ">; rel=\"urn:ietf:params:whep:ext:core:layer\""] := by
  have hne : (auth == "") = false := by
    cases hb : auth == "" with
    | false => rfl
    | true =>
      rw [eq_of_beq hb] at hex
      rw [show extractBearerToken "" = ((none : Option (List String)), false) from rfl] at hex
      simp at hex
  simp only [whepHandler, hne, hex, Option.getD_some, List.headD_cons, hkey]
  exact ⟨rfl, rfl, rfl, rfl, rfl⟩

/-- Witness for C5 as amended at a concrete request. -/
theorem c5_witness :
    (whepHandler (fun _ _ => Except.ok ("theanswer", "s9")) "host.example" "/api/whep"
        "Bearer key1" (Except.ok "offer")).statusEff = 201 ∧
    linkValues (whepHandler (fun _ _ => Except.ok ("theanswer", "s9")) "host.example" "/api/whep"
        "Bearer key1" (Except.ok "offer")) =
      ["<" ++ ("host.example" ++ goTrimSuf "/api/whep" "whep") ++ "sse/" ++ "s9" ++
         ">; rel=\"urn:ietf:params:whep:ext:core:server-sent-events\"; events=\"layers\"",
       "<" ++ ("host.example" ++ goTrimSuf "/api/whep" "whep") ++ "layer/" ++ "s9" ++
         ">; rel=\"urn:ietf:params:whep:ext:core:layer\""] :=
  ⟨(c5_whep_links "host.example" "/api/whep" "Bearer key1" "offer" "theanswer" "s9" "key1" []
      (by decide) (by decide)).1,
   (c5_whep_links "host.example" "/api/whep" "Bearer key1" "offer" "theanswer" "s9" "key1" []
      (by decide) (by decide)).2.2.2.2⟩

/-- Counterexample to C4 as stated: a well-formed JSON body that lacks the
encodingId member decodes successfully — encoding/json leaves the absent field
at its zero value — so the handler does not answer 400 and does invoke the
engine's layer change. -/
theorem c4_counterexample :
    decodeWhepLayerRequest (JsonBodyScan.obj [("mediaId", "m0")]) =
      Except.ok ⟨"m0", ""⟩ ∧
    (whepLayerHandler (fun _ _ => none) "/api/layer/s1"
        (JsonBodyScan.obj [("mediaId", "m0")])).engineCalled = true ∧
    (whepLayerHandler (fun _ _ => none) "/api/layer/s1"
        (JsonBodyScan.obj [("mediaId", "m0")])).statusEff = 200 :=
  ⟨rfl, by decide, by decide⟩

/-- C4 as amended: every well-formed JSON object body decodes — a missing
encodingId member yields the zero value, the empty string — and the engine's
WHEPChangeLayer is then always invoked; only a malformed JSON body is rejected
with 400 before any engine call. -/
theorem c4_layer_missing_encoding (fields : List (String × String)) (uri msg : String)
    (changeLayer : String → String → Option String) :
    decodeWhepLayerRequest (JsonBodyScan.obj fields) =
      Except.ok ⟨(fields.lookup "mediaId").getD "", (fields.lookup "encodingId").getD ""⟩ ∧
    (whepLayerHandler changeLayer uri (JsonBodyScan.obj fields)).engineCalled = true ∧
    (whepLayerHandler changeLayer uri (JsonBodyScan.malformed msg)).statusEff = 400 ∧
    (whepLayerHandler changeLayer uri (JsonBodyScan.malformed msg)).engineCalled = false := by
  refine ⟨rfl, ?_, rfl, rfl⟩
  simp only [whepLayerHandler, decodeWhepLayerRequest]
  cases changeLayer (lastSegment uri) ((fields.lookup "encodingId").getD "") with
  | none => rfl
  | some e => rfl

/-- C7: the status endpoint answers 400 for a key failing the syntax check, 404
for a syntactically valid key absent from the enumerated key set — in both
cases without querying the engine's status — and only for a key present in the
set does it query the engine and answer 200 with the status JSON. -/
theorem c7_statusHandler (q : KeysQueryOutcome) (g : String → String) (key : String) :
    (validateStreamKey key = false →
      (statusHandler q g key).statusEff = 400 ∧
      (statusHandler q g key).engineCalled = false) ∧
    (validateStreamKey key = true → q.rows.contains key = false →
      (statusHandler q g key).statusEff = 404 ∧
      (statusHandler q g key).engineCalled = false) ∧
    (validateStreamKey key = true → q.rows.contains key = true →
      (statusHandler q g key).statusEff = 200 ∧
      (statusHandler q g key).engineCalled = true ∧
      (statusHandler q g key).body = g key ++ "\n") := by
  refine ⟨?_, ?_, ?_⟩
  · intro hv
    simp only [statusHandler, GetStreamKeys, hv]
    exact ⟨rfl, rfl⟩
  · intro hv hm
    simp only [statusHandler, GetStreamKeys, hv, hm]
    exact ⟨rfl, rfl⟩
  · intro hv hm
    simp only [statusHandler, GetStreamKeys, hv, hm]
    exact ⟨rfl, rfl, rfl⟩

/-- Witness for C7 at concrete requests against a store knowing the key abc. -/
theorem c7_witness :
    (statusHandler ⟨["abc"], false⟩ (fun _ => "st") "bad key").statusEff = 400 ∧
    (statusHandler ⟨["abc"], false⟩ (fun _ => "st") "zzz").statusEff = 404 ∧
    (statusHandler ⟨["abc"], false⟩ (fun _ => "st") "abc").statusEff = 200 :=
  ⟨((c7_statusHandler ⟨["abc"], false⟩ (fun _ => "st") "bad key").1 (by decide)).1,
   ((c7_statusHandler ⟨["abc"], false⟩ (fun _ => "st") "zzz").2.1 (by decide) (by decide)).1,
   ((c7_statusHandler ⟨["abc"], false⟩ (fun _ => "st") "abc").2.2 (by decide) (by decide)).1⟩

/-- Counterexample to C10 as stated: on a store outage the handler answers 200,
but the body is the literal null — the Go JSON encoding of the nil slice — and
not a JSON array. -/
theorem c10_counterexample :
    GetStreamKeys ⟨[], true⟩ = ([], none) ∧
    (streamsHandler ⟨[], true⟩).statusEff = 200 ∧
    (streamsHandler ⟨[], true⟩).body = "null\n" ∧
    isJsonArrayBody (streamsHandler ⟨[], true⟩).body = false := by
  decide

/-- C10 as amended: GetStreamKeys returns a nil error for every store outcome,
so the 400 branch of the streams handler is unreachable and every request is
answered 200 with the Go JSON encoding of whatever keys were collected — the
literal null for the empty (nil) slice after an outage, a JSON array
otherwise. -/
theorem c10_getStreamKeys_never_errs (q : KeysQueryOutcome) :
    (GetStreamKeys q).2 = none ∧
    (streamsHandler q).statusEff = 200 ∧
    (streamsHandler q).body = goEncodeStreamKeys q.rows ∧
    (streamsHandler q).headers = [("Content-Type", "application/json")] :=
  ⟨rfl, rfl, rfl, rfl⟩

/-- C1: at a syntactically valid two-component bearer token, NewStreamer
returns nil for a transient pool or query failure exactly as it does for zero
rows, so the WHIP handler answers 403 in both cases — the transient store
failure is conflated with AuthUnauthorized instead of being surfaced as a
distinct server-side failure. -/
theorem c1_transient_conflated_with_403 :
    (whipHandler (fun _ _ => ScanResult.noRows) (fun _ _ => Except.ok "theanswer")
        "POST" "Bearer key1;secret1" (Except.ok "offer")).statusEff = 403 ∧
    (whipHandler (fun _ _ => ScanResult.transientErr "connection refused")
        (fun _ _ => Except.ok "theanswer")
        "POST" "Bearer key1;secret1" (Except.ok "offer")).statusEff = 403 ∧
    NewStreamer (fun _ _ => ScanResult.transientErr "connection refused")
        (some ["key1", "secret1"]) = (LookupResult.ok none, true) ∧
    NewStreamer (fun _ _ => ScanResult.noRows)
        (some ["key1", "secret1"]) = (LookupResult.ok none, true) := by
  decide

/-- C2: the malformed-token branch of the WHIP handler writes 400 but does not
return, so for a two-component token with an invalid stream key the credential
store is still queried, and for a header without the Bearer prefix the nil
token slice is then indexed inside NewStreamer — a runtime panic — contradicting
the claim that the rejection happens strictly before any store access. -/
theorem c2_malformed_not_short_circuited :
    (whipHandler (fun _ _ => ScanResult.noRows) (fun _ _ => Except.ok "theanswer")
        "POST" "Bearer bad!key;secret1" (Except.ok "offer")).status = some 400 ∧
    (whipHandler (fun _ _ => ScanResult.noRows) (fun _ _ => Except.ok "theanswer")
        "POST" "Bearer bad!key;secret1" (Except.ok "offer")).storeAccessed = true ∧
    (whipHandler (fun _ _ => ScanResult.noRows) (fun _ _ => Except.ok "theanswer")
        "POST" "Basic x" (Except.ok "offer")).status = some 400 ∧
    (whipHandler (fun _ _ => ScanResult.noRows) (fun _ _ => Except.ok "theanswer")
        "POST" "Basic x" (Except.ok "offer")).panicked = true := by
  decide

/-- C3: the header `Bearer abc` passes the prefix check and the key-syntax
check yet splits into a single component, and NewStreamer then reads token[1]
unconditionally: the access is out of bounds — a runtime panic — so the token
slice does not always have at least two elements at that point. -/
theorem c3_single_component_token_oob :
    extractBearerToken "Bearer abc" = (some ["abc"], true) ∧
    validateStreamKey "abc" = true ∧
    (["abc"] : List String).length < 2 ∧
    NewStreamer (fun _ _ => ScanResult.noRows) (some ["abc"]) = (LookupResult.panic, false) ∧
    (whipHandler (fun _ _ => ScanResult.noRows) (fun _ _ => Except.ok "theanswer")
        "POST" "Bearer abc" (Except.ok "offer")).panicked = true := by
  decide

end BroadcastBox
